import Mathlib

/-
Shallow embedding of the protocol core of adleroliveira/wasm-mcp
(AssemblyScript sources under src/assembly plus the helper modules):
event emitter, abort primitives, schema validator, JSON-RPC request
metadata, and the Protocol engine (outbound requests, timeouts,
progress, cancellation, inbound dispatch, close handling).

Callbacks and timers are modelled by explicit state passing: every
operation returns the new engine state together with the list of
observable events (callback invocations, transport sends, timer
arms/clears, the user close callback) it produced, in program order.
Callback closures are identified by opaque numeric tokens.
-/

namespace WasmMcp

/-- JS falsy-string fallback: `a || b` on strings ("" is falsy). -/
def strOr (a b : String) : String := if a = "" then b else a

/- ===== event-emitter.ts / abort.ts: EventEmitter, AbortSignal, AbortController ===== -/

/-- AbortSignal (abort.ts) together with its inherited EventEmitter state:
`listeners` maps an event name to the callback tokens registered for it,
in registration order. -/
structure AbortSignal where
  listeners : List (String × List Nat) := []
  aborted : Bool := false
  reason : String := ""
deriving Repr, DecidableEq

/-- EventEmitter.on: append a callback token for an event. -/
def AbortSignal.on (s : AbortSignal) (event : String) (cbId : Nat) : AbortSignal :=
  if s.listeners.any (fun p => p.1 == event) then
    { s with listeners := s.listeners.map (fun p => if p.1 == event then (p.1, p.2 ++ [cbId]) else p) }
  else
    { s with listeners := s.listeners ++ [(event, [cbId])] }

/-- EventEmitter.emit: the callback tokens invoked, in registration order. -/
def AbortSignal.emit (s : AbortSignal) (event : String) : List Nat :=
  match s.listeners.find? (fun p => p.1 == event) with
  | some p => p.2
  | none => []

/-- AbortSignal._abort: if not yet aborted, set the flag, store the reason,
then emit "abort"; otherwise do nothing. Returns the new signal and the
list of listener tokens fired. -/
def AbortSignal._abort (s : AbortSignal) (reason : String) : AbortSignal × List Nat :=
  if !s.aborted then
    let s1 : AbortSignal := { s with aborted := true, reason := reason }
    (s1, s1.emit "abort")
  else
    (s, [])

/-- AbortController owns one signal. -/
structure AbortController where
  signal : AbortSignal := {}
deriving Repr, DecidableEq

/-- AbortController.abort delegates to the signal's _abort. The source
default for `reason` is "The operation was aborted"; callers pass it
explicitly here. -/
def AbortController.abort (c : AbortController) (reason : String) : AbortController × List Nat :=
  let p := c.signal._abort reason
  ({ signal := p.1 }, p.2)

/- ===== schema-validator.ts: JSValue, SchemaType, ValidationResult, SchemaValidator ===== -/

/-- Untrusted JS-shaped payload values. JS `undefined` and `null` are both
modelled by `null` (the validator treats them identically). Numbers are
modelled by Int: the source uses f64 only for min/max bound comparisons,
which no claim depends on. -/
inductive JSValue where
  | null
  | str (s : String)
  | num (n : Int)
  | bool (b : Bool)
  | arr (elems : List JSValue)
  | obj (fields : List (String × JSValue))

/-- The JS `typeof` string reported in validator error messages
(`typeof null`, arrays and objects are all "object"). -/
def JSValue.typeofStr : JSValue → String
  | .null => "object"
  | .str _ => "string"
  | .num _ => "number"
  | .bool _ => "boolean"
  | .arr _ => "object"
  | .obj _ => "object"

/-- Whether the value is null/undefined. -/
def JSValue.isNull : JSValue → Bool
  | .null => true
  | _ => false

/-- The named-key view a `for (key in obj)` / `key in obj` check sees:
objects expose their fields; arrays pass the `typeof === "object"` test
but expose no named string keys; everything else is not object-like. -/
def JSValue.objFields : JSValue → Option (List (String × JSValue))
  | .obj fields => some fields
  | .arr _ => some []
  | _ => none

/-- JS `key in input`. -/
def hasKey (fields : List (String × JSValue)) (k : String) : Bool :=
  fields.any (fun p => p.1 == k)

/-- JS `input[key]` (only read after a `key in input` check; absent keys
yield null, which the source never observes on this path). -/
def getKey (fields : List (String × JSValue)) (k : String) : JSValue :=
  match fields.find? (fun p => p.1 == k) with
  | some p => p.2
  | none => JSValue.null

/-- SchemaType (schema-validator.ts): each variant carries the
`isNullable` flag plus its own payload, mirroring the source's single
class with optional fields per tag. -/
inductive SchemaType where
  | string (isNullable : Bool) (minLength maxLength : Option Int)
  | number (isNullable : Bool) (min max : Option Int)
  | boolean (isNullable : Bool)
  | array (isNullable : Bool) (items : Option SchemaType) (minLength maxLength : Option Int)
  | object (isNullable : Bool) (properties : Option (List (String × SchemaType)))
  | union (isNullable : Bool) (types : List SchemaType)
  | custom (isNullable : Bool) (validator : JSValue → Bool)
  | reference (isNullable : Bool) (name : String)

/-- The `isNullable` field of a SchemaType. -/
def SchemaType.isNullable : SchemaType → Bool
  | .string n _ _ => n
  | .number n _ _ => n
  | .boolean n => n
  | .array n _ _ _ => n
  | .object n _ => n
  | .union n _ => n
  | .custom n _ => n
  | .reference n _ => n

/-- ValidationResult: `valid` starts true, `errors` collects
path-qualified messages. -/
structure ValidationResult where
  valid : Bool := true
  errors : List String := []
deriving Repr, DecidableEq

/-- ValidationResult.addError: flip `valid` to false and append
"path: message". -/
def ValidationResult.addError (r : ValidationResult) (path message : String) : ValidationResult :=
  { valid := false, errors := r.errors ++ [path ++ ": " ++ message] }

/-- A fresh `new ValidationResult()`. -/
def ValidationResult.fresh : ValidationResult := {}

/-- The source's sequential min/max bound checks shared by the string,
number and array branches of validateValue: fail on the lower bound
first, then the upper bound, with the bound spliced into the message. -/
def SchemaValidator.rangeCheck (v : Int) (lo hi : Option Int) (loMsg hiMsg : String)
    (path : String) (r : ValidationResult) : Bool × ValidationResult :=
  match lo with
  | some mn =>
    if v < mn then (false, r.addError path (loMsg ++ toString mn))
    else
      match hi with
      | some mx => if v > mx then (false, r.addError path (hiMsg ++ toString mx)) else (true, r)
      | none => (true, r)
  | none =>
    match hi with
    | some mx => if v > mx then (false, r.addError path (hiMsg ++ toString mx)) else (true, r)
    | none => (true, r)

/-- SchemaValidator.validateValue. `named` is the validator's
namedSchemas registry; the source's unbounded recursion through
references is made total by a fuel parameter (every recursive call
consumes one unit; out of fuel returns the result unchanged, which no
concrete evaluation in this file reaches). The boolean mirrors the
source's return value, the ValidationResult the mutated `result`.
Array elements stop at the first failing element (the source returns
false from inside the loop); object properties record an error and
continue on a missing non-nullable property but return false at the
first present property whose value fails. -/
def SchemaValidator.validateValue (named : List (String × SchemaType)) :
    Nat → JSValue → SchemaType → String → ValidationResult → Bool × ValidationResult
  | 0, _, _, _, r => (false, r)
  | fuel + 1, value, typeDef, path, r =>
    if value.isNull then
      if !typeDef.isNullable then (false, r.addError path "Value cannot be null or undefined")
      else (true, r)
    else
      match typeDef with
      | .reference _ name =>
        match named.find? (fun p => p.1 == name) with
        | some p => SchemaValidator.validateValue named fuel value p.2 path r
        | none => (false, r.addError path ("Unknown schema reference: " ++ name))
      | .string _ minL maxL =>
        match value with
        | .str sv =>
          SchemaValidator.rangeCheck (sv.length : Int) minL maxL
            "String length must be at least " "String length must be at most " path r
        | _ => (false, r.addError path ("Expected string, got " ++ value.typeofStr))
      | .number _ mn mx =>
        match value with
        | .num nv =>
          SchemaValidator.rangeCheck nv mn mx
            "Number must be at least " "Number must be at most " path r
        | _ => (false, r.addError path ("Expected number, got " ++ value.typeofStr))
      | .boolean _ =>
        match value with
        | .bool _ => (true, r)
        | _ => (false, r.addError path ("Expected boolean, got " ++ value.typeofStr))
      | .array _ items minL maxL =>
        match value with
        | .arr elems =>
          let lenChk := SchemaValidator.rangeCheck (elems.length : Int) minL maxL
            "Array length must be at least " "Array length must be at most " path r
          if !lenChk.1 then lenChk
          else
            match items with
            | some itemT =>
              elems.enum.foldl
                (fun acc ie =>
                  if acc.1 then
                    SchemaValidator.validateValue named fuel ie.2 itemT
                      (path ++ "[" ++ toString ie.1 ++ "]") acc.2
                  else acc)
                (true, lenChk.2)
            | none => (true, lenChk.2)
        | _ => (false, r.addError path ("Expected array, got " ++ value.typeofStr))
      | .object _ properties =>
        match value.objFields with
        | some objF =>
          match properties with
          | some props =>
            props.foldl
              (fun acc p =>
                if !acc.1 then acc
                else if !(hasKey objF p.1) then
                  if !p.2.isNullable then
                    (true, acc.2.addError (path ++ "." ++ p.1) "Required property missing")
                  else acc
                else
                  SchemaValidator.validateValue named fuel (getKey objF p.1) p.2
                    (path ++ "." ++ p.1) acc.2)
              (true, r)
          | none => (true, r)
        | none => (false, r.addError path ("Expected object, got " ++ value.typeofStr))
      | .union _ types =>
        if types.any (fun t =>
            (SchemaValidator.validateValue named fuel value t path ValidationResult.fresh).1) then
          (true, r)
        else
          (false, r.addError path "Value does not match any union type")
      | .custom _ f =>
        if f value then (true, r)
        else (false, r.addError path "Custom validation failed")

/-- SchemaValidator.validate: top-level entry. Rejects non-object
inputs; for each declared schema key, records "Required property
missing" when the key is absent and non-nullable (and keeps going), or
validates the present value (continuing regardless of the outcome); in
strict mode flags unknown input keys afterwards. -/
def SchemaValidator.validate (named : List (String × SchemaType))
    (schema : List (String × SchemaType)) (strict : Bool) (fuel : Nat)
    (obj : JSValue) : ValidationResult :=
  match obj.objFields with
  | none => ValidationResult.fresh.addError "root" "Expected object"
  | some input =>
    let r1 := schema.foldl
      (fun acc kv =>
        if !(hasKey input kv.1) && !kv.2.isNullable then
          acc.addError kv.1 "Required property missing"
        else if hasKey input kv.1 then
          (SchemaValidator.validateValue named fuel (getKey input kv.1) kv.2 kv.1 acc).2
        else acc)
      ValidationResult.fresh
    if strict then
      input.foldl
        (fun acc p =>
          if !(schema.any (fun kv => kv.1 == p.1)) then acc.addError p.1 "Unexpected property"
          else acc)
        r1
    else r1

/- ===== jsonrpc-messages.ts: JSONRPCRequest metadata bookkeeping ===== -/

/-- JS object / Map key update: overwrite in place when the key exists,
otherwise append (both preserve insertion order). -/
def setKV (m : List (String × String)) (k v : String) : List (String × String) :=
  if m.any (fun p => p.1 == k) then
    m.map (fun p => if p.1 == k then (k, v) else p)
  else m ++ [(k, v)]

/-- JS `delete obj[k]` / `Map.delete`. -/
def delKV (m : List (String × String)) (k : String) : List (String × String) :=
  m.filter (fun p => !(p.1 == k))

/-- Key lookup in a string map. -/
def lookupKV (m : List (String × String)) (k : String) : Option String :=
  (m.find? (fun p => p.1 == k)).map (fun p => p.2)

/-- Whether two string maps hold exactly the same key-to-value pairs. -/
def sameEntries (a b : List (String × String)) : Bool :=
  a.all (fun p => lookupKV b p.1 == some p.2) && b.all (fun p => lookupKV a p.1 == some p.2)

/-- JSONRPCRequest, reduced to the two metadata representations the
claims are about: `paramsMeta` is the `params._meta` sub-map, `_meta`
the internal side table. Other params keys and the id/method fields do
not interact with the metadata accessors. -/
structure JSONRPCRequest where
  id : Int
  method : String
  paramsMeta : List (String × String)
  _meta : List (String × String)
deriving Repr, DecidableEq

/-- JSONRPCRequest constructor: `this.params = { _meta: {}, ...params }`
lets a caller-supplied `_meta` entry overwrite the empty default (spread
wins), while the internal side table always starts empty.
`callerMeta` is the `_meta` entry of the caller-supplied params, when
present. -/
def JSONRPCRequest.create (id : Int) (method : String)
    (callerMeta : Option (List (String × String))) : JSONRPCRequest :=
  { id := id, method := method, paramsMeta := callerMeta.getD [], _meta := [] }

/-- JSONRPCRequest.addMetadata: write the pair into both the side table
and `params._meta`. -/
def JSONRPCRequest.addMetadata (r : JSONRPCRequest) (k v : String) : JSONRPCRequest :=
  { r with _meta := setKV r._meta k v, paramsMeta := setKV r.paramsMeta k v }

/-- JSONRPCRequest.removeMetadata: delete the key from both
representations. -/
def JSONRPCRequest.removeMetadata (r : JSONRPCRequest) (k : String) : JSONRPCRequest :=
  { r with _meta := delKV r._meta k, paramsMeta := delKV r.paramsMeta k }

/-- A metadata mutation: addMetadata or removeMetadata. -/
inductive MetaOp where
  | add (k v : String)
  | remove (k : String)

/-- Apply a sequence of metadata mutations left to right. -/
def applyMetaOps (r : JSONRPCRequest) (ops : List MetaOp) : JSONRPCRequest :=
  ops.foldl
    (fun r op =>
      match op with
      | .add k v => r.addMetadata k v
      | .remove k => r.removeMetadata k)
    r

/- ===== protocol.ts + protocol-helpers.ts + protocol-types.ts: the engine ===== -/

/-- Modelled from the spec: the error-code enum lives in schema.ts,
which is not among the sources; the spec (section 6) names MethodNotFound,
InternalError, RequestTimeout and ConnectionClosed plus role-defined
domain codes, so the codes are kept symbolic. -/
inductive ErrorCode where
  | methodNotFound
  | internalError
  | requestTimeout
  | connectionClosed
  | domain (code : Int)
deriving Repr, DecidableEq

/-- An error delivered to a request callback: either a plain
`new Error(message)` or a McpError with code, message and data. -/
inductive ProtoError where
  | plain (message : String)
  | mcp (code : ErrorCode) (message : String) (data : Option (List (String × String)))
deriving Repr, DecidableEq

/-- A message handed to `transport.send`, reduced to the fields the
claims inspect. -/
inductive WireMsg where
  | request (id : Int) (method : String) (hasProgressToken : Bool)
  | cancelledNotification (requestId : Int) (reason : String)
  | response (id : Int) (result : Nat)
  | errorResponse (id : Int) (code : ErrorCode) (message : String) (hasData : Bool)
deriving Repr, DecidableEq

/-- An observable effect of an engine operation, in program order. -/
inductive Event where
  | cb (cbId : Nat) (result : Option Nat) (error : Option ProtoError)
  | progressCb (cbId : Nat) (progress : Int)
  | sent (msg : WireMsg)
  | timerArmed (timerId : Int) (duration : Int)
  | timerCleared (timerId : Int)
  | userOnClose
deriving Repr, DecidableEq

/-- Whether an event is a response-callback invocation. -/
def Event.isCb : Event → Bool
  | .cb _ _ _ => true
  | _ => false

/-- Whether an event is a response-callback invocation for a given
callback token. -/
def Event.isCbFor (cbId : Nat) : Event → Bool
  | .cb c _ _ => c == cbId
  | _ => false

/-- TimeoutInfo (protocol-types.ts), minus the onTimeout closure: that
closure is exactly `Protocol.timeoutHandler messageId timeout` captured
at arm time. -/
structure TimeoutInfo where
  timeoutId : Int
  startTime : Int
  timeout : Int
  maxTotalTimeout : Int
  resetTimeoutOnProgress : Bool
deriving Repr, DecidableEq

/-- Integer-keyed assoc map: overwrite-or-append, matching Map.set. -/
def setKey {α : Type} (m : List (Int × α)) (k : Int) (v : α) : List (Int × α) :=
  if m.any (fun p => p.1 == k) then
    m.map (fun p => if p.1 == k then (k, v) else p)
  else m ++ [(k, v)]

/-- Integer-keyed assoc map deletion, matching Map.delete. -/
def removeKey {α : Type} (m : List (Int × α)) (k : Int) : List (Int × α) :=
  m.filter (fun p => !(p.1 == k))

/-- Integer-keyed assoc map lookup, matching Map.get. -/
def findKey {α : Type} (m : List (Int × α)) (k : Int) : Option α :=
  (m.find? (fun p => p.1 == k)).map (fun p => p.2)

/-- The Protocol engine's mutable state. `transportConnected` stands for
`_transport !== null`; callback closures are tracked by token:
`responseHandlers` and `progressHandlers` map a message id to the
callback token registered for it, `abortListeners` records the
(messageId, callback token) pairs whose abortHandler closure was
subscribed on a caller signal (nothing ever unsubscribes them). -/
structure ProtocolState where
  transportConnected : Bool := true
  enforceStrict : Bool := false
  hasOnClose : Bool := false
  requestMessageId : Int := 0
  responseHandlers : List (Int × Nat) := []
  progressHandlers : List (Int × Nat) := []
  timeoutInfo : List (Int × TimeoutInfo) := []
  requestHandlerAbortControllers : List Int := []
  abortListeners : List (Int × Nat) := []
  nextTimerId : Int := 0
deriving Repr, DecidableEq

/-- The default request timeout (constants.ts). -/
def DEFAULT_REQUEST_TIMEOUT_MSEC : Int := 60000

/-- cleanupRequest (protocol-helpers.ts): delete the id from the
response and progress handler maps; if a TimeoutInfo record exists,
clear its timer and delete the record. -/
def cleanupRequest (messageId : Int) (s : ProtocolState) : ProtocolState × List Event :=
  let s1 := { s with
    responseHandlers := removeKey s.responseHandlers messageId,
    progressHandlers := removeKey s.progressHandlers messageId }
  match findKey s.timeoutInfo messageId with
  | some info =>
    ({ s1 with timeoutInfo := removeKey s1.timeoutInfo messageId },
     [Event.timerCleared info.timeoutId])
  | none => (s1, [])

/-- createTimeoutError (protocol-helpers.ts). -/
def createTimeoutError (timeout : Int) (message : String) : ProtoError :=
  ProtoError.mcp ErrorCode.requestTimeout
    (strOr message ("Request timed out after " ++ toString timeout ++ "ms")) none

namespace Protocol

/-- The timeoutHandler closure built inside Protocol.request: clean up
the id's table entries, then fetch the response callback from the
(just-cleaned) response-handler table and invoke it if found. -/
def timeoutHandler (messageId : Int) (timeout : Int) (s : ProtocolState) :
    ProtocolState × List Event :=
  let c := cleanupRequest messageId s
  match findKey c.1.responseHandlers messageId with
  | some cbId => (c.1, c.2 ++ [Event.cb cbId none (some (createTimeoutError timeout ""))])
  | none => (c.1, c.2)

/-- The abortHandler closure built inside Protocol.request for a caller
signal: clean up the id's table entries, best-effort-send a
notifications/cancelled message, then invoke the captured callback with
an abort error. `signalReason` is the signal's reason at fire time. -/
def abortHandler (messageId : Int) (cbId : Nat) (signalReason : String)
    (s : ProtocolState) : ProtocolState × List Event :=
  let c := cleanupRequest messageId s
  let sendEvts :=
    if c.1.transportConnected then
      [Event.sent (WireMsg.cancelledNotification messageId (strOr signalReason "Request cancelled"))]
    else []
  (c.1, c.2 ++ sendEvts
    ++ [Event.cb cbId none (some (ProtoError.plain (strOr signalReason "The operation was aborted")))])

/-- RequestOptions (protocol-types.ts). The progress callback is a
token; the signal is the caller's AbortSignal. -/
structure RequestOptions where
  hasOnProgress : Bool := false
  progressCbId : Nat := 0
  signal : Option AbortSignal := none
  timeout : Int := DEFAULT_REQUEST_TIMEOUT_MSEC
  resetTimeoutOnProgress : Bool := false
  maxTotalTimeout : Int := 0

/-- The tail of Protocol.request after the aborted-signal check:
progress registration, response-handler registration, timeout arming,
abort-listener subscription, then the send (a synchronous send failure
triggers full cleanup and delivers the send error). -/
def requestArm (method : String) (options : Option RequestOptions) (cbId : Nat)
    (now : Int) (sendThrows : Option String) (messageId : Int)
    (s : ProtocolState) : ProtocolState × List Event :=
  let hasProg := (options.map (fun o => o.hasOnProgress)).getD false
  let s := if hasProg then
      { s with progressHandlers :=
          setKey s.progressHandlers messageId ((options.map (fun o => o.progressCbId)).getD 0) }
    else s
  let s := { s with responseHandlers := setKey s.responseHandlers messageId cbId }
  let timeout := (options.map (fun o => o.timeout)).getD DEFAULT_REQUEST_TIMEOUT_MSEC
  let maxTotal := (options.map (fun o => o.maxTotalTimeout)).getD 0
  let reset := (options.map (fun o => o.resetTimeoutOnProgress)).getD false
  let tid := s.nextTimerId
  let s := { s with
    nextTimerId := tid + 1,
    timeoutInfo := setKey s.timeoutInfo messageId
      { timeoutId := tid, startTime := now, timeout := timeout,
        maxTotalTimeout := maxTotal, resetTimeoutOnProgress := reset } }
  let s := match options.bind (fun o => o.signal) with
    | some _ => { s with abortListeners := s.abortListeners ++ [(messageId, cbId)] }
    | none => s
  match sendThrows with
  | none =>
    (s, [Event.timerArmed tid timeout, Event.sent (WireMsg.request messageId method hasProg)])
  | some emsg =>
    let c := cleanupRequest messageId s
    (c.1, [Event.timerArmed tid timeout] ++ c.2
      ++ [Event.cb cbId none (some (ProtoError.plain emsg))])

/-- Protocol.request. Abstract collaborators appear as parameters:
`cbId` is the caller's callback token, `now` the Timer.now() reading,
`capabilityError` the outcome of the abstract assertCapabilityForMethod
hook (some message = it threw), `sendThrows` whether transport.send
throws synchronously. JSONRPCRequest.create never returns null, so the
source's invalid-request branch is unreachable and not modelled. -/
def request (method : String) (options : Option RequestOptions) (cbId : Nat)
    (now : Int) (capabilityError : Option String) (sendThrows : Option String)
    (s : ProtocolState) : ProtocolState × List Event :=
  if !s.transportConnected then
    (s, [Event.cb cbId none (some (ProtoError.plain "Not connected"))])
  else
    match (if s.enforceStrict then capabilityError else none) with
    | some msg => (s, [Event.cb cbId none (some (ProtoError.plain msg))])
    | none =>
      let messageId := s.requestMessageId
      let s := { s with requestMessageId := s.requestMessageId + 1 }
      match options.bind (fun o => o.signal) with
      | some sig =>
        if sig.aborted then
          (s, [Event.cb cbId none
                (some (ProtoError.plain (strOr sig.reason "The operation was aborted")))])
        else
          requestArm method options cbId now sendThrows messageId s
      | none => requestArm method options cbId now sendThrows messageId s

/-- Protocol._onresponse: unknown ids are ignored; otherwise clean up
the three tables first, then deliver the result or a McpError built from
the error payload. -/
def _onresponse (messageId : Int) (payload : Sum Nat (ErrorCode × String × Option (List (String × String))))
    (s : ProtocolState) : ProtocolState × List Event :=
  match findKey s.responseHandlers messageId with
  | none => (s, [])
  | some cbId =>
    let c := cleanupRequest messageId s
    match payload with
    | .inl result => (c.1, c.2 ++ [Event.cb cbId (some result) none])
    | .inr e => (c.1, c.2 ++ [Event.cb cbId none (some (ProtoError.mcp e.1 e.2.1 e.2.2))])

/-- Protocol._onclose: swap the response-handler table for an empty one,
clear the progress table, clear every armed timer and the timeout table,
drop the transport, invoke the user's onclose callback when set, then
deliver ConnectionClosed to every previously registered response
callback in table order. -/
def _onclose (s : ProtocolState) : ProtocolState × List Event :=
  let old := s.responseHandlers
  let clearEvts := s.timeoutInfo.map (fun p => Event.timerCleared p.2.timeoutId)
  let s1 := { s with
    responseHandlers := [], progressHandlers := [], timeoutInfo := [],
    transportConnected := false }
  let closeEvts := if s.hasOnClose then [Event.userOnClose] else []
  let cbEvts := old.map (fun p =>
    Event.cb p.2 none (some (ProtoError.mcp ErrorCode.connectionClosed "Connection closed" none)))
  (s1, clearEvts ++ closeEvts ++ cbEvts)

/-- Outcome of Protocol._resetTimeout: no record, reset done, or the
hard maximum was exceeded (the source throws a timeout error there
after deleting the record). -/
inductive ResetOutcome where
  | noInfo
  | resetOk
  | maxExceeded
deriving Repr, DecidableEq

/-- Protocol._resetTimeout: if elapsed time reaches a positive
maxTotalTimeout, delete the record and fail; otherwise clear the old
timer and re-arm one with the base duration (startTime unchanged). -/
def _resetTimeout (now : Int) (messageId : Int) (s : ProtocolState) :
    ProtocolState × List Event × ResetOutcome :=
  match findKey s.timeoutInfo messageId with
  | none => (s, [], ResetOutcome.noInfo)
  | some info =>
    if 0 < info.maxTotalTimeout ∧ info.maxTotalTimeout ≤ now - info.startTime then
      ({ s with timeoutInfo := removeKey s.timeoutInfo messageId }, [], ResetOutcome.maxExceeded)
    else
      let tid := s.nextTimerId
      ({ s with
          nextTimerId := tid + 1,
          timeoutInfo := setKey s.timeoutInfo messageId { info with timeoutId := tid } },
       [Event.timerCleared info.timeoutId, Event.timerArmed tid info.timeout],
       ResetOutcome.resetOk)

/-- Protocol._onprogress, after payload validation and token parsing
(`messageId` is the parsed progress token, `progress` the reported
value). Unknown tokens are ignored; with reset-on-progress enabled a
failing reset delivers the thrown timeout error to the response
callback and returns; otherwise the progress handler fires. -/
def _onprogress (now : Int) (messageId : Int) (progress : Int) (s : ProtocolState) :
    ProtocolState × List Event :=
  match findKey s.progressHandlers messageId with
  | none => (s, [])
  | some pcbId =>
    let deliver := fun (s' : ProtocolState) (evts : List Event) =>
      (s', evts ++ [Event.progressCb pcbId progress])
    match findKey s.timeoutInfo messageId with
    | some info =>
      if info.resetTimeoutOnProgress then
        let rr := _resetTimeout now messageId s
        match rr.2.2 with
        | ResetOutcome.maxExceeded =>
          (match findKey rr.1.responseHandlers messageId with
           | some cbId =>
             (rr.1, rr.2.1
               ++ [Event.cb cbId none
                    (some (createTimeoutError info.maxTotalTimeout "Maximum total timeout exceeded"))])
           | none => (rr.1, rr.2.1))
        | _ => deliver rr.1 rr.2.1
      else deliver s []
    | none => deliver s []

/-- What an inbound request handler does, abstracting the user handler:
return a result, throw a McpError, throw a plain Error, or throw a
non-Error value. -/
inductive HandlerOutcome where
  | ok (result : Nat)
  | throwMcp (code : ErrorCode) (message : String) (hasData : Bool)
  | throwErr (message : String)
  | throwOther
deriving Repr, DecidableEq

/-- sendError / sendResult (protocol-helpers.ts) only transmit when a
transport is attached; the JSONRPCError/JSONRPCResponse factories
validate shapes that are always valid for engine-built responses. -/
def sendErrorEvts (connected : Bool) (id : Int) (code : ErrorCode) (message : String)
    (hasData : Bool) : List Event :=
  if connected then [Event.sent (WireMsg.errorResponse id code message hasData)] else []

/-- Protocol._onrequest: no handler (and no fallback) sends
MethodNotFound; otherwise a fresh abort controller is registered for the
id, the handler runs, its outcome is answered unless the controller was
aborted meanwhile, and the controller entry is removed in the finally
block regardless of outcome. `abortedDuring` is the controller's
signal.aborted at the post-handler check. -/
def _onrequest (hasHandler : Bool) (requestId : Int) (outcome : HandlerOutcome)
    (abortedDuring : Bool) (s : ProtocolState) : ProtocolState × List Event :=
  if !hasHandler then
    (s, sendErrorEvts s.transportConnected requestId ErrorCode.methodNotFound "Method not found" false)
  else
    let evts :=
      if abortedDuring then []
      else
        match outcome with
        | .ok result =>
          if s.transportConnected then [Event.sent (WireMsg.response requestId result)] else []
        | .throwMcp code message hasData =>
          sendErrorEvts s.transportConnected requestId code (strOr message "Internal error") hasData
        | .throwErr message =>
          sendErrorEvts s.transportConnected requestId ErrorCode.internalError
            (strOr message "Internal error") false
        | .throwOther =>
          sendErrorEvts s.transportConnected requestId ErrorCode.internalError
            "Unknown error occurred" false
    let registered :=
      if s.requestHandlerAbortControllers.any (fun i => i == requestId) then
        s.requestHandlerAbortControllers
      else s.requestHandlerAbortControllers ++ [requestId]
    ({ s with requestHandlerAbortControllers :=
        registered.filter (fun i => !(i == requestId)) },
     evts)

end Protocol

/- ===== invariants and concrete fixtures used by the theorems ===== -/

/-- The ValidationResult invariant: the `valid` flag agrees with the
emptiness of the error list. -/
def ValidationResult.wf (r : ValidationResult) : Prop :=
  r.valid = r.errors.isEmpty

/-- Concrete controller for the C4 witness: one registered "abort"
listener with token 7, not yet aborted. -/
def c4Controller : AbortController := { signal := { listeners := [("abort", [7])] } }

/-- A schema with two required (non-nullable) string properties, for the
C5 counterexample. -/
def twoRequiredSchema : List (String × SchemaType) :=
  [("a", SchemaType.string false none none), ("b", SchemaType.string false none none)]

/-- A live, not-yet-aborted caller signal for the C1 trace. -/
def c1Signal : AbortSignal := {}

/-- Request options with a caller signal and a 50 ms timeout (C1). -/
def c1Opts : Protocol.RequestOptions := { signal := some c1Signal, timeout := 50 }

/-- A freshly connected engine with empty tables (C1). -/
def c1Start : ProtocolState := {}

/-- Timeout record for the C3 scenario: base 100 ms, hard maximum
150 ms, reset-on-progress enabled, started at t=0. -/
def c3Info : TimeoutInfo :=
  { timeoutId := 1, startTime := 0, timeout := 100, maxTotalTimeout := 150,
    resetTimeoutOnProgress := true }

/-- Engine state with one outstanding request (id 42, response callback
token 9, progress callback token 8) for the C3 scenario. -/
def c3State : ProtocolState :=
  { responseHandlers := [(42, 9)], progressHandlers := [(42, 8)],
    timeoutInfo := [(42, c3Info)] }

/-- Timeout record for the C6 witness. -/
def c6Info : TimeoutInfo :=
  { timeoutId := 3, startTime := 0, timeout := 60000, maxTotalTimeout := 0,
    resetTimeoutOnProgress := false }

/-- Engine state with two outstanding requests and a user onclose
callback installed, for the C6 witness. -/
def c6State : ProtocolState :=
  { hasOnClose := true, responseHandlers := [(0, 5), (1, 6)],
    progressHandlers := [(1, 7)], timeoutInfo := [(0, c6Info)] }

/-- An already-aborted signal with a non-empty reason (C8 witness). -/
def c8Signal : AbortSignal := { aborted := true, reason := "user gave up" }

/-- Request options carrying the already-aborted signal (C8 witness). -/
def c8Opts : Protocol.RequestOptions := { signal := some c8Signal }

/-- Engine state with an unrelated outstanding request, for the C8
witness: its tables must come through request() unchanged. -/
def c8State : ProtocolState :=
  { responseHandlers := [(3, 4)], progressHandlers := [(3, 2)],
    timeoutInfo := [(3, { timeoutId := 0, startTime := 0, timeout := 500,
                          maxTotalTimeout := 0, resetTimeoutOnProgress := false })] }

/-- An already-aborted signal whose reason is the empty string (C8
counterexample). -/
def c8CexSignal : AbortSignal := { aborted := true, reason := "" }

end WasmMcp

open WasmMcp

/- ===== shared helper lemmas ===== -/

/-- Folding preserves any invariant preserved by each step. -/
theorem foldl_preserve {α β : Type} (P : β → Prop) (f : β → α → β)
    (hf : ∀ b a, P b → P (f b a)) :
    ∀ (l : List α) (b : β), P b → P (l.foldl f b) := by
  intro l
  induction l with
  | nil => exact fun b hb => hb
  | cons x xs ih => exact fun b hb => ih (f b x) (hf b x hb)

/-- Appending a singleton never yields the empty list. -/
theorem isEmpty_append_singleton (l : List String) (x : String) :
    (l ++ [x]).isEmpty = false := by
  cases l <;> rfl

/-- addError establishes the ValidationResult invariant unconditionally. -/
theorem addError_wf (r : ValidationResult) (p m : String) :
    (r.addError p m).wf := by
  simp [ValidationResult.addError, ValidationResult.wf, isEmpty_append_singleton]

/-- rangeCheck preserves the ValidationResult invariant. -/
theorem rangeCheck_wf (v : Int) (lo hi : Option Int) (lm hm path : String)
    (r : ValidationResult) (h : r.wf) :
    (SchemaValidator.rangeCheck v lo hi lm hm path r).2.wf := by
  unfold SchemaValidator.rangeCheck
  rcases lo with _ | mn <;> rcases hi with _ | mx <;>
    simp only [] <;>
    repeat' split
  all_goals first | exact h | exact addError_wf ..

/-- validateValue preserves the ValidationResult invariant: every branch
either returns the result unchanged or extends it through addError. -/
theorem validateValue_wf (named : List (String × SchemaType)) :
    ∀ (fuel : Nat) (v : JSValue) (t : SchemaType) (path : String) (r : ValidationResult),
      r.wf → (SchemaValidator.validateValue named fuel v t path r).2.wf := by
  intro fuel
  induction fuel with
  | zero => exact fun v t path r h => h
  | succ n ih =>
    intro v t path r h
    simp only [SchemaValidator.validateValue]
    split
    · split
      · exact addError_wf ..
      · exact h
    · split
      · -- reference
        split
        · exact ih _ _ _ _ h
        · exact addError_wf ..
      · -- string
        split
        · exact rangeCheck_wf _ _ _ _ _ _ _ h
        · exact addError_wf ..
      · -- number
        split
        · exact rangeCheck_wf _ _ _ _ _ _ _ h
        · exact addError_wf ..
      · -- boolean
        split
        · exact h
        · exact addError_wf ..
      · -- array
        split
        · split
          · exact rangeCheck_wf _ _ _ _ _ _ _ h
          · split
            · refine foldl_preserve (fun (acc : Bool × ValidationResult) => acc.2.wf) _ ?_ _ _
                (rangeCheck_wf _ _ _ _ _ _ _ h)
              intro b a hb
              split
              · exact ih _ _ _ _ hb
              · exact hb
            · exact rangeCheck_wf _ _ _ _ _ _ _ h
        · exact addError_wf ..
      · -- object
        split
        · split
          · refine foldl_preserve (fun (acc : Bool × ValidationResult) => acc.2.wf) _ ?_ _ _ h
            intro b a hb
            split
            · exact hb
            · split
              · split
                · exact addError_wf ..
                · exact hb
              · exact ih _ _ _ _ hb
          · exact h
        · exact addError_wf ..
      · -- union
        split
        · exact h
        · exact addError_wf ..
      · -- custom
        split
        · exact h
        · exact addError_wf ..

/-- validate returns a ValidationResult satisfying the invariant. -/
theorem validate_wf (named schema : List (String × SchemaType)) (strict : Bool)
    (fuel : Nat) (obj : JSValue) :
    (SchemaValidator.validate named schema strict fuel obj).wf := by
  unfold SchemaValidator.validate
  split
  · exact addError_wf ..
  · next input heq =>
    have h1 : (schema.foldl
        (fun acc kv =>
          if !(hasKey input kv.1) && !kv.2.isNullable then
            acc.addError kv.1 "Required property missing"
          else if hasKey input kv.1 then
            (SchemaValidator.validateValue named fuel (getKey input kv.1) kv.2 kv.1 acc).2
          else acc)
        ValidationResult.fresh).wf := by
      refine foldl_preserve (fun (r : ValidationResult) => r.wf) _ ?_ _ _ rfl
      intro b a hb
      split
      · exact addError_wf ..
      · split
        · exact validateValue_wf named fuel _ _ _ _ hb
        · exact hb
    split
    · refine foldl_preserve (fun (r : ValidationResult) => r.wf) _ ?_ _ _ h1
      intro b a hb
      split
      · exact addError_wf ..
      · exact hb
    · exact h1

/-- A well-formed ValidationResult answers valid and errors-emptiness
identically. -/
theorem wf_valid_iff (r : ValidationResult) (h : r.wf) :
    r.valid = true ↔ r.errors = [] := by
  rw [h, List.isEmpty_iff]

/-- Folding the missing-required step appends one error per non-nullable
schema key. -/
theorem foldl_missing_errors (schema : List (String × SchemaType)) :
    ∀ r : ValidationResult,
      (schema.foldl
        (fun acc kv =>
          if !kv.2.isNullable then acc.addError kv.1 "Required property missing" else acc)
        r).errors
        = r.errors
          ++ (schema.filter (fun kv => !kv.2.isNullable)).map
              (fun kv => kv.1 ++ ": Required property missing") := by
  induction schema with
  | nil => intro r; simp
  | cons kv t ih =>
    intro r
    cases hnn : (!kv.2.isNullable) with
    | false =>
      simp only [List.foldl_cons, List.filter_cons, hnn, Bool.false_eq_true, if_false, ih]
    | true =>
      simp only [List.foldl_cons, List.filter_cons, hnn, if_true, ih, List.map_cons]
      simp [ValidationResult.addError, String.append_assoc]

/-- C4: AbortController.abort is idempotent. For a controller whose signal
is not yet aborted, the first `abort r1` sets `aborted := true`, stores
`r1`, and fires exactly the registered "abort" listeners once, in
registration order; a second `abort r2` is a no-op: the controller is
unchanged, no listener fires again, `aborted` stays true and the stored
reason stays `r1`. (The flag flips before listeners are notified, so the
emitted listener list is read from the already-aborted signal.) -/
theorem abort_twice_equals_once (c : AbortController) (r1 r2 : String)
    (h : c.signal.aborted = false) :
    ((c.abort r1).1.abort r2).1 = (c.abort r1).1
      ∧ ((c.abort r1).1.abort r2).2 = []
      ∧ (c.abort r1).1.signal.aborted = true
      ∧ (c.abort r1).1.signal.reason = r1
      ∧ (c.abort r1).2 = c.signal.emit "abort" := by
  simp only [AbortController.abort, AbortSignal._abort, AbortSignal.emit, h]
  simp [AbortSignal.emit]

/-- Witness for C4: on the concrete controller, aborting twice fires the
listener once and the second call changes nothing. -/
theorem abort_twice_equals_once_witness :
    c4Controller.signal.aborted = false
      ∧ (((c4Controller.abort "x").1.abort "y").1 = (c4Controller.abort "x").1
          ∧ ((c4Controller.abort "x").1.abort "y").2 = []
          ∧ (c4Controller.abort "x").1.signal.aborted = true
          ∧ (c4Controller.abort "x").1.signal.reason = "x"
          ∧ (c4Controller.abort "x").2 = c4Controller.signal.emit "abort") := by
  exact ⟨rfl, abort_twice_equals_once c4Controller "x" "y" rfl⟩

/-- Counterexample for C5: a schema with two required properties and an
empty object input yields two "Required property missing" entries — the
loop does not stop at the first failing required property, so the error
list is not limited to one such entry per object validation. -/
theorem validate_two_missing_required_cex :
    (SchemaValidator.validate [] twoRequiredSchema false 100 (JSValue.obj [])).errors
      = ["a: Required property missing", "b: Required property missing"] := by
  decide

/-- C5 (amended): validation of an object's declared properties does not
stop at a missing required (non-nullable) property; it records one
"Required property missing" error per missing non-nullable property and
continues — for an empty object input the error list is exactly one
such entry for every non-nullable declared property, in declaration
order (early exit happens only at the first present property whose
value fails validation). -/
theorem validate_collects_every_missing_required
    (named schema : List (String × SchemaType)) (strict : Bool) (fuel : Nat) :
    (SchemaValidator.validate named schema strict fuel (JSValue.obj [])).errors
      = (schema.filter (fun kv => !kv.2.isNullable)).map
          (fun kv => kv.1 ++ ": Required property missing") := by
  unfold SchemaValidator.validate
  simp only [JSValue.objFields]
  have hstep :
      (fun (acc : ValidationResult) (kv : String × SchemaType) =>
        if !(hasKey [] kv.1) && !kv.2.isNullable then
          acc.addError kv.1 "Required property missing"
        else if hasKey [] kv.1 then
          (SchemaValidator.validateValue named fuel (getKey [] kv.1) kv.2 kv.1 acc).2
        else acc)
      = (fun (acc : ValidationResult) (kv : String × SchemaType) =>
          if !kv.2.isNullable then acc.addError kv.1 "Required property missing" else acc) := by
    funext acc kv
    simp [hasKey]
  cases strict <;>
    simp only [Bool.false_eq_true, if_false, if_true, List.foldl_nil, hstep,
      foldl_missing_errors, ValidationResult.fresh, List.nil_append]

/-- C10: every ValidationResult produced by SchemaValidator.validate —
and any ValidationResult built by a sequence of addError calls on a
fresh result — satisfies valid = true exactly when its error list is
empty, so callers may test either field interchangeably. -/
theorem validationResult_valid_iff_errors_empty
    (named schema : List (String × SchemaType)) (strict : Bool) (fuel : Nat)
    (obj : JSValue) (ps : List (String × String)) :
    ((SchemaValidator.validate named schema strict fuel obj).valid = true
        ↔ (SchemaValidator.validate named schema strict fuel obj).errors = [])
      ∧ ((ps.foldl (fun (r : ValidationResult) p => r.addError p.1 p.2) ValidationResult.fresh).valid = true
          ↔ (ps.foldl (fun (r : ValidationResult) p => r.addError p.1 p.2) ValidationResult.fresh).errors = []) := by
  constructor
  · exact wf_valid_iff _ (validate_wf named schema strict fuel obj)
  · refine wf_valid_iff _ ?_
    refine foldl_preserve (fun (r : ValidationResult) => r.wf) _ ?_ _ _ rfl
    intro b a _
    exact addError_wf ..

/- ===== protocol engine theorems ===== -/

/-- find? for a key never succeeds on a list filtered to exclude it. -/
theorem find?_filter_ne {α : Type} (t : List (Int × α)) (k : Int) :
    (t.filter (fun q => !(q.1 == k))).find? (fun q => q.1 == k) = none := by
  rw [List.find?_eq_none]
  intro x hx
  have hmem := (List.mem_filter.mp hx).2
  simp only [Bool.not_eq_eq_eq_not, Bool.not_true, beq_eq_false_iff_ne] at hmem
  simpa using hmem

/-- Deleting a key from an assoc map makes its lookup fail. -/
theorem findKey_removeKey {α : Type} (m : List (Int × α)) (k : Int) :
    findKey (removeKey m k) k = none := by
  simp [findKey, removeKey, find?_filter_ne]

/-- C2: the timeoutHandler closure never invokes any response callback:
it first runs cleanupRequest, which deletes the id's entry from the
response-handler table, and only then looks the callback up in that
table — the lookup always fails, so on a pure timeout no callback fires
at all (in particular never with a RequestTimeout error, contrary to
the claim). -/
theorem timeoutHandler_never_fires_callback (messageId timeout : Int) (s : ProtocolState) :
    ((Protocol.timeoutHandler messageId timeout s).2.filter Event.isCb) = [] := by
  unfold Protocol.timeoutHandler cleanupRequest
  cases hf : findKey s.timeoutInfo messageId <;>
    simp [findKey_removeKey, Event.isCb]

/-- C1: a trace in which the supplied callback fires twice. A request is
sent with a caller signal (callback token 7, message id 0); the
response arrives and the response path cleans the tables and invokes
the callback once; the caller's signal then aborts, and the
abortHandler closure invokes the captured callback again without
checking that the id was already completed — two invocations in total,
refuting exactly-once delivery. -/
theorem request_callback_fired_twice_on_abort_after_response :
    ((Protocol.request "tools/call" (some c1Opts) 7 0 none none c1Start).2
        ++ (Protocol._onresponse 0 (Sum.inl 99)
              (Protocol.request "tools/call" (some c1Opts) 7 0 none none c1Start).1).2
        ++ (Protocol.abortHandler 0 7 "changed my mind"
              (Protocol._onresponse 0 (Sum.inl 99)
                (Protocol.request "tools/call" (some c1Opts) 7 0 none none c1Start).1).1).2
      ).countP (Event.isCbFor 7) = 2 := by
  decide

/-- C6: _onclose empties all three per-id tables, drops the transport,
and its event trace is exactly: the timer clears for every armed
timeout, then the user onclose callback, then a ConnectionClosed
McpError delivered to every response callback registered before the
close, in table order. -/
theorem onclose_flushes_after_user_callback (s : ProtocolState) (h : s.hasOnClose = true) :
    (Protocol._onclose s).1.responseHandlers = []
      ∧ (Protocol._onclose s).1.progressHandlers = []
      ∧ (Protocol._onclose s).1.timeoutInfo = []
      ∧ (Protocol._onclose s).1.transportConnected = false
      ∧ (Protocol._onclose s).2
          = s.timeoutInfo.map (fun p => Event.timerCleared p.2.timeoutId)
            ++ [Event.userOnClose]
            ++ s.responseHandlers.map (fun p =>
                Event.cb p.2 none
                  (some (ProtoError.mcp ErrorCode.connectionClosed "Connection closed" none))) := by
  simp [Protocol._onclose, h]

/-- Witness for C6: closing the concrete two-request engine clears its
tables and produces the clear/close/flush trace in order. -/
theorem onclose_flushes_after_user_callback_witness :
    c6State.hasOnClose = true
      ∧ ((Protocol._onclose c6State).1.responseHandlers = []
          ∧ (Protocol._onclose c6State).1.progressHandlers = []
          ∧ (Protocol._onclose c6State).1.timeoutInfo = []
          ∧ (Protocol._onclose c6State).1.transportConnected = false
          ∧ (Protocol._onclose c6State).2
              = c6State.timeoutInfo.map (fun p => Event.timerCleared p.2.timeoutId)
                ++ [Event.userOnClose]
                ++ c6State.responseHandlers.map (fun p =>
                    Event.cb p.2 none
                      (some (ProtoError.mcp ErrorCode.connectionClosed "Connection closed" none)))) :=
  ⟨rfl, onclose_flushes_after_user_callback c6State rfl⟩

/-- Counterexample for C3: in the concrete state c3State (request 42
outstanding with response callback 9, progress callback 8,
reset-on-progress, max total 150 ms) a progress notification at t=150
delivers the "Maximum total timeout exceeded" error — but only the
timeout record is dropped: the response and progress callbacks are
still registered afterwards, contrary to the claim that all per-id
state is dropped. -/
theorem onprogress_max_exceeded_keeps_handlers_cex :
    (Protocol._onprogress 150 42 5 c3State).1.responseHandlers = [(42, 9)]
      ∧ (Protocol._onprogress 150 42 5 c3State).1.progressHandlers = [(42, 8)]
      ∧ (Protocol._onprogress 150 42 5 c3State).1.timeoutInfo = []
      ∧ (Protocol._onprogress 150 42 5 c3State).2
          = [Event.cb 9 none (some (ProtoError.mcp ErrorCode.requestTimeout
              "Maximum total timeout exceeded" none))] := by
  decide

/-- C3 (amended): when a qualifying progress notification arrives for an
id with reset-on-progress enabled and the elapsed time meets or exceeds
the positive hard maximum, the reset fails and a RequestTimeout McpError
with message "Maximum total timeout exceeded" is delivered to that id's
response callback; the timeout record is dropped, but the response and
progress callbacks are NOT dropped — they remain registered. -/
theorem onprogress_max_exceeded_delivers_error_keeps_handlers
    (s : ProtocolState) (now messageId progress : Int) (pcb cb : Nat) (info : TimeoutInfo)
    (hp : findKey s.progressHandlers messageId = some pcb)
    (ht : findKey s.timeoutInfo messageId = some info)
    (hr : info.resetTimeoutOnProgress = true)
    (hm : 0 < info.maxTotalTimeout)
    (he : info.maxTotalTimeout ≤ now - info.startTime)
    (hc : findKey s.responseHandlers messageId = some cb) :
    Protocol._onprogress now messageId progress s
      = ({ s with timeoutInfo := removeKey s.timeoutInfo messageId },
         [Event.cb cb none (some (ProtoError.mcp ErrorCode.requestTimeout
            "Maximum total timeout exceeded" none))])
      ∧ (Protocol._onprogress now messageId progress s).1.responseHandlers = s.responseHandlers
      ∧ (Protocol._onprogress now messageId progress s).1.progressHandlers = s.progressHandlers
      ∧ findKey (Protocol._onprogress now messageId progress s).1.timeoutInfo messageId = none := by
  have hmain : Protocol._onprogress now messageId progress s
      = ({ s with timeoutInfo := removeKey s.timeoutInfo messageId },
         [Event.cb cb none (some (ProtoError.mcp ErrorCode.requestTimeout
            "Maximum total timeout exceeded" none))]) := by
    unfold Protocol._onprogress Protocol._resetTimeout
    rw [hp, ht]
    simp only [hr, if_true, ht]
    rw [if_pos ⟨hm, he⟩]
    simp only []
    rw [hc]
    simp [createTimeoutError, strOr]
  exact ⟨hmain, by rw [hmain], by rw [hmain], by rw [hmain]; exact findKey_removeKey _ _⟩

/-- Witness for C3's amended theorem at the concrete c3State scenario. -/
theorem onprogress_max_exceeded_delivers_error_keeps_handlers_witness :
    Protocol._onprogress 150 42 7 c3State
      = ({ c3State with timeoutInfo := removeKey c3State.timeoutInfo 42 },
         [Event.cb 9 none (some (ProtoError.mcp ErrorCode.requestTimeout
            "Maximum total timeout exceeded" none))])
      ∧ (Protocol._onprogress 150 42 7 c3State).1.responseHandlers = c3State.responseHandlers
      ∧ (Protocol._onprogress 150 42 7 c3State).1.progressHandlers = c3State.progressHandlers
      ∧ findKey (Protocol._onprogress 150 42 7 c3State).1.timeoutInfo 42 = none :=
  onprogress_max_exceeded_delivers_error_keeps_handlers c3State 150 42 7 8 9 c3Info
    rfl rfl rfl (by decide) (by decide) rfl

/-- Counterexample for C7: a handler that throws a McpError whose
message is the empty string does not get its message propagated
verbatim — the engine substitutes "Internal error" in the error
response it sends. -/
theorem onrequest_empty_mcp_message_cex :
    (Protocol._onrequest true 5
        (Protocol.HandlerOutcome.throwMcp (ErrorCode.domain (-32001)) "" false) false
        {}).2
      = [Event.sent (WireMsg.errorResponse 5 (ErrorCode.domain (-32001)) "Internal error" false)]
      ∧ "Internal error" ≠ "" := by
  exact ⟨by decide, by decide⟩

/-- C7 (amended): with a transport attached, an inbound handler that
throws a McpError produces exactly one error response carrying the
error's code and data verbatim and its message verbatim when non-empty
(an empty message is replaced by "Internal error"), suppressed entirely
when the request's controller was aborted; a thrown plain Error becomes
an InternalError response with its message (same empty-message
fallback), any other thrown value an InternalError response with
"Unknown error occurred"; and the inbound abort-controller entry for
the id is removed for every outcome. -/
theorem onrequest_error_responses (requestId : Int) (code : ErrorCode)
    (message emsg : String) (hasData abortedDuring : Bool) (s : ProtocolState)
    (h : s.transportConnected = true) :
    (Protocol._onrequest true requestId
        (Protocol.HandlerOutcome.throwMcp code message hasData) abortedDuring s).2
        = (if abortedDuring then []
           else [Event.sent (WireMsg.errorResponse requestId code
                  (strOr message "Internal error") hasData)])
      ∧ (Protocol._onrequest true requestId
          (Protocol.HandlerOutcome.throwErr emsg) abortedDuring s).2
          = (if abortedDuring then []
             else [Event.sent (WireMsg.errorResponse requestId ErrorCode.internalError
                    (strOr emsg "Internal error") false)])
      ∧ (Protocol._onrequest true requestId
          Protocol.HandlerOutcome.throwOther abortedDuring s).2
          = (if abortedDuring then []
             else [Event.sent (WireMsg.errorResponse requestId ErrorCode.internalError
                    "Unknown error occurred" false)])
      ∧ ∀ outcome : Protocol.HandlerOutcome,
          (Protocol._onrequest true requestId outcome abortedDuring s).1.requestHandlerAbortControllers
            = s.requestHandlerAbortControllers.filter (fun i => !(i == requestId)) := by
  refine ⟨?_, ?_, ?_, ?_⟩
  · simp [Protocol._onrequest, Protocol.sendErrorEvts, h]
  · simp [Protocol._onrequest, Protocol.sendErrorEvts, h]
  · simp [Protocol._onrequest, Protocol.sendErrorEvts, h]
  · intro outcome
    simp only [Protocol._onrequest, Bool.not_true, Bool.false_eq_true, if_false]
    by_cases hreg : s.requestHandlerAbortControllers.any (fun i => i == requestId) = true
    · simp [hreg]
    · simp [hreg, List.filter_append]

/-- Witness for C7's amended theorem: scenario D's handler throwing
code -32001 and message "boom" yields an error response with that code
and message; the controller table entry for id 5 is gone afterwards. -/
theorem onrequest_error_responses_witness :
    (Protocol._onrequest true 5
        (Protocol.HandlerOutcome.throwMcp (ErrorCode.domain (-32001)) "boom" false) false
        {}).2
        = (if false then []
           else [Event.sent (WireMsg.errorResponse 5 (ErrorCode.domain (-32001))
                  (strOr "boom" "Internal error") false)])
      ∧ (Protocol._onrequest true 5
          (Protocol.HandlerOutcome.throwErr "kaput") false ({} : ProtocolState)).2
          = (if false then []
             else [Event.sent (WireMsg.errorResponse 5 ErrorCode.internalError
                    (strOr "kaput" "Internal error") false)])
      ∧ (Protocol._onrequest true 5 Protocol.HandlerOutcome.throwOther false
          ({} : ProtocolState)).2
          = (if false then []
             else [Event.sent (WireMsg.errorResponse 5 ErrorCode.internalError
                    "Unknown error occurred" false)])
      ∧ ∀ outcome : Protocol.HandlerOutcome,
          (Protocol._onrequest true 5 outcome false ({} : ProtocolState)).1.requestHandlerAbortControllers
            = ({} : ProtocolState).requestHandlerAbortControllers.filter (fun i => !(i == 5)) :=
  onrequest_error_responses 5 (ErrorCode.domain (-32001)) "boom" "kaput" false false {} rfl

/-- Counterexample for C8: when the already-aborted signal carries an
empty reason, the synchronously delivered error message is the fallback
"The operation was aborted", not the signal's abort reason (which is
""): the callback does not fire with the signal's abort reason. -/
theorem request_aborted_signal_empty_reason_cex :
    (Protocol.request "tools/call" (some { signal := some c8CexSignal }) 3 0 none none {}).2
        = [Event.cb 3 none (some (ProtoError.plain "The operation was aborted"))]
      ∧ c8CexSignal.reason = ""
      ∧ "The operation was aborted" ≠ "" := by
  refine ⟨by decide, rfl, by decide⟩

/-- C8 (amended): calling Protocol.request with an options signal that
is already aborted invokes the callback synchronously with the signal's
abort reason (or the fallback "The operation was aborted" when that
reason is empty); the only event is that single callback — nothing is
sent on the transport and no timer is armed — and the only state change
is the message-id counter increment: the response-callback,
progress-callback and timeout tables are left unchanged. -/
theorem request_aborted_signal_no_state (method : String)
    (opts : Protocol.RequestOptions) (cbId : Nat) (now : Int)
    (capErr sendThrows : Option String) (sig : AbortSignal) (s : ProtocolState)
    (ht : s.transportConnected = true)
    (hstrict : s.enforceStrict = false)
    (hsig : opts.signal = some sig)
    (hab : sig.aborted = true) :
    Protocol.request method (some opts) cbId now capErr sendThrows s
      = ({ s with requestMessageId := s.requestMessageId + 1 },
         [Event.cb cbId none
            (some (ProtoError.plain (strOr sig.reason "The operation was aborted")))]) := by
  simp [Protocol.request, ht, hstrict, hsig, hab]

/-- Witness for C8's amended theorem: on c8State (one unrelated
outstanding request) with the aborted signal c8Signal, request fails
synchronously with the signal's reason and only the counter moves. -/
theorem request_aborted_signal_no_state_witness :
    Protocol.request "tools/call" (some c8Opts) 11 0 none none c8State
      = ({ c8State with requestMessageId := c8State.requestMessageId + 1 },
         [Event.cb 11 none
            (some (ProtoError.plain (strOr c8Signal.reason "The operation was aborted")))]) :=
  request_aborted_signal_no_state "tools/call" c8Opts 11 0 none none c8Signal c8State
    rfl rfl rfl rfl

/-- Counterexample for C9: a request constructed with caller params that
already contain a _meta entry starts with the side table empty while
params._meta holds the caller entry; after an addMetadata mutation the
two representations still do not contain the same key-value pairs. -/
theorem metadata_out_of_sync_with_caller_meta_cex :
    sameEntries
        ((JSONRPCRequest.create 1 "tools/call" (some [("k", "v")])).addMetadata "p" "1")._meta
        ((JSONRPCRequest.create 1 "tools/call" (some [("k", "v")])).addMetadata "p" "1").paramsMeta
      = false := by
  decide

/-- Each addMetadata/removeMetadata applies the same update to both
representations, so equality of the two maps is preserved. -/
theorem applyMetaOps_sync (ops : List MetaOp) :
    ∀ r : JSONRPCRequest, r._meta = r.paramsMeta
      → (applyMetaOps r ops)._meta = (applyMetaOps r ops).paramsMeta := by
  induction ops with
  | nil => exact fun r h => h
  | cons op t ih =>
    intro r h
    cases op with
    | add k v =>
      have hstep : applyMetaOps r (MetaOp.add k v :: t)
          = applyMetaOps (r.addMetadata k v) t := rfl
      rw [hstep]
      exact ih _ (by simp [JSONRPCRequest.addMetadata, h])
    | remove k =>
      have hstep : applyMetaOps r (MetaOp.remove k :: t)
          = applyMetaOps (r.removeMetadata k) t := rfl
      rw [hstep]
      exact ih _ (by simp [JSONRPCRequest.removeMetadata, h])

/-- C9 (amended): for a JSONRPCRequest constructed with caller params
that contain no _meta entry, the internal metadata side table and the
params._meta sub-map hold exactly the same key-value pairs (they are
equal as ordered maps) after every sequence of addMetadata and
removeMetadata mutations; a caller-supplied _meta entry, by contrast,
seeds only params._meta and leaves the two representations out of
sync. -/
theorem metadata_tables_sync_without_caller_meta (id : Int) (method : String)
    (ops : List MetaOp) :
    (applyMetaOps (JSONRPCRequest.create id method none) ops)._meta
      = (applyMetaOps (JSONRPCRequest.create id method none) ops).paramsMeta :=
  applyMetaOps_sync ops _ rfl
